import Mathlib

/-!
Shallow embedding of the CLI code-agent execution layer of the repository:
`src/utils/cline_interface.py` (class `ClineCodeInterface`) and
`src/utils/codex_interface.py` (class `CodexCodeInterface`).

Both adapters expose `execute_code_cli(prompt, cwd, model)` returning a
Python dict `{success, stdout, stderr, returncode}`, and a stub
`extract_file_changes`.  The interaction with the operating system
(spawning the agent process, the pseudo-terminal, the deadline clock) is
nondeterministic from the program's point of view; we model each possible
outcome of that interaction as an explicit `world` value and embed each
adapter method as a total function of its arguments, the world, and the
process-wide current working directory (`os.getcwd()` state).  File
descriptor lifetime for the pseudo-terminal pair is tracked explicitly in
the returned state so that close/leak behaviour is provable.
-/

/-- The uniform result shape returned by `execute_code_cli` of every
adapter: the Python dict
`{"success": ..., "stdout": ..., "stderr": ..., "returncode": ...}`. -/
structure InvocationResult where
  success : Bool
  stdout : String
  stderr : String
  returncode : Int
  deriving Repr, DecidableEq

/-- Outcome of the availability probe run by an adapter constructor
(`subprocess.run([binary, versionArg], ...)`):
either the binary is absent (Python raises `FileNotFoundError`), or the
probe process completed with some return code. -/
inductive ProbeOutcome where
  | notFound
  | completed (returncode : Int)
  deriving Repr, DecidableEq

namespace ClineCodeInterface

/-- Error message raised by `ClineCodeInterface.__init__`
(src/utils/cline_interface.py lines 13-15 and 17-19). -/
def notFoundMsg : String :=
  "Cline CLI not found. Please ensure 'cline' is installed and in PATH"

/-- Embedding of `ClineCodeInterface.__init__`
(src/utils/cline_interface.py lines 8-19).  The constructor probes
`cline version`; `.error` models the `RuntimeError` it raises, in which
case no adapter instance exists, so no `execute_code_cli` call can ever
be made on it.  `.ok` models a successfully constructed instance. -/
def init : ProbeOutcome → Except String Unit
  | .notFound => .error notFoundMsg
  | .completed rc => if rc = 0 then .ok () else .error notFoundMsg

/-- Nondeterministic outcome of the body of
`ClineCodeInterface.execute_code_cli` as seen by the program:
`os.chdir(cwd)` may raise; otherwise `subprocess.run` either completes
with a return code and captured output, raises `subprocess.TimeoutExpired`
(whose `stdout`/`stderr` attributes are `str` or `None`, modelled as
`Option String`), or raises some other exception rendered as `str(e)`. -/
inductive ClineWorld where
  | chdirFails (msg : String)
  | completed (returncode : Int) (stdout stderr : String)
  | timedOut (partialStdout partialStderr : Option String)
  | runFails (msg : String)
  deriving Repr, DecidableEq

/-- Embedding of the command construction in
`ClineCodeInterface.execute_code_cli`
(src/utils/cline_interface.py lines 40-51): fixed automation flags, then
the prompt as trailing positional argument.  The `model` parameter is
deliberately ignored (the source keeps the model flag commented out,
lines 47-48), so it does not occur in the command. -/
def build_command (prompt : String) (model : Option String) : List String :=
  let cmd := ["cline", "-y", "-F", "plain", "--oneshot"]
  let _ := model
  cmd ++ [prompt]

/-- Embedding of `ClineCodeInterface.execute_code_cli`
(src/utils/cline_interface.py lines 21-90).  `dir0` is the process-wide
current working directory on entry (`os.getcwd()`); the second component
of the result is the current working directory after the call returns.
The `let dir := ...` shadowing mirrors the `os.chdir` calls on each path. -/
def execute_code_cli (prompt cwd : String) (model : Option String)
    (world : ClineWorld) (dir0 : String) : InvocationResult × String :=
  let original_cwd := dir0
  let _cmd := build_command prompt model
  match world with
  | .chdirFails msg =>
      -- os.chdir(cwd) raised: directory unchanged, `except Exception` handler
      -- (lines 83-90) restores original_cwd and returns the error result.
      let dir := original_cwd
      ({ success := false, stdout := "", stderr := msg, returncode := -1 }, dir)
  | .completed rc out err =>
      -- lines 53-66: subprocess.run completed; restore directory, normalize.
      let _dir := cwd
      let dir := original_cwd
      ({ success := rc == 0, stdout := out, stderr := err, returncode := rc }, dir)
  | .timedOut pOut pErr =>
      -- lines 67-82: subprocess.TimeoutExpired handler.
      let _dir := cwd
      let dir := original_cwd
      let partial_stdout := pOut.getD ""
      let partial_stderr := pErr.getD ""
      let timeout_msg := "Command timed out after 30 minutes"
      let timeout_msg :=
        if partial_stdout ≠ "" ∨ partial_stderr ≠ "" then
          timeout_msg ++ ". Partial output - stdout: " ++
            toString partial_stdout.length ++ " chars, stderr: " ++
            toString partial_stderr.length ++ " chars"
        else timeout_msg
      ({ success := false,
         stdout := partial_stdout,
         stderr := timeout_msg ++
           (if partial_stderr ≠ "" then
             "\nPartial stderr: " ++ partial_stderr.take 500
            else ""),
         returncode := -1 }, dir)
  | .runFails msg =>
      -- lines 83-90: generic exception handler.
      let _dir := cwd
      let dir := original_cwd
      ({ success := false, stdout := "", stderr := msg, returncode := -1 }, dir)

/-- Embedding of `ClineCodeInterface.extract_file_changes`
(src/utils/cline_interface.py lines 92-94): the documented placeholder,
literally `return []`. -/
def extract_file_changes (response : String) : List (List (String × String)) :=
  let _ := response
  []

end ClineCodeInterface

/-- Continuation byte test of UTF-8: `0x80 ≤ b ≤ 0xBF`. -/
def isCont (b : Nat) : Bool := 0x80 ≤ b && b ≤ 0xBF

/-- Admissible second byte after lead byte `b1`, following the UTF-8
well-formedness table used by CPython's decoder (restricted ranges after
`E0`, `ED`, `F0`, `F4` rule out overlong encodings and surrogates). -/
def isSecondByteOk (b1 b2 : Nat) : Bool :=
  if b1 = 0xE0 then 0xA0 ≤ b2 && b2 ≤ 0xBF
  else if b1 = 0xED then 0x80 ≤ b2 && b2 ≤ 0x9F
  else if b1 = 0xF0 then 0x90 ≤ b2 && b2 ≤ 0xBF
  else if b1 = 0xF4 then 0x80 ≤ b2 && b2 ≤ 0x8F
  else isCont b2

/-- What the error handler contributes for one undecodable subpart:
nothing for `errors='ignore'`, one replacement code point for
`errors='replace'`. -/
def emitOnError (repl : Option Nat) : List Nat :=
  match repl with
  | some c => [c]
  | none => []

/-- Model of CPython's `bytes.decode('utf-8', errors=...)` for the
non-raising error handlers, as a map from the byte list to the list of
decoded code points.  `repl = none` models `errors='ignore'` (the call at
src/utils/codex_interface.py line 103), `repl = some 0xFFFD` models
`errors='replace'`.  On an invalid sequence the maximal valid subpart
(lead byte plus the valid continuation bytes that follow it) is consumed
and `emitOnError` is produced, matching CPython's error-handling ranges. -/
def utf8DecodeLenient (repl : Option Nat) : List Nat → List Nat
  | [] => []
  | b1 :: rest =>
    if b1 < 0x80 then b1 :: utf8DecodeLenient repl rest
    else if 0xC2 ≤ b1 && b1 ≤ 0xDF then
      match rest with
      | [] => emitOnError repl
      | b2 :: rest2 =>
        if isCont b2 then
          ((b1 - 0xC0) * 0x40 + (b2 - 0x80)) :: utf8DecodeLenient repl rest2
        else emitOnError repl ++ utf8DecodeLenient repl (b2 :: rest2)
    else if 0xE0 ≤ b1 && b1 ≤ 0xEF then
      match rest with
      | [] => emitOnError repl
      | b2 :: rest2 =>
        if isSecondByteOk b1 b2 then
          match rest2 with
          | [] => emitOnError repl
          | b3 :: rest3 =>
            if isCont b3 then
              ((b1 - 0xE0) * 0x1000 + (b2 - 0x80) * 0x40 + (b3 - 0x80)) ::
                utf8DecodeLenient repl rest3
            else emitOnError repl ++ utf8DecodeLenient repl (b3 :: rest3)
        else emitOnError repl ++ utf8DecodeLenient repl (b2 :: rest2)
    else if 0xF0 ≤ b1 && b1 ≤ 0xF4 then
      match rest with
      | [] => emitOnError repl
      | b2 :: rest2 =>
        if isSecondByteOk b1 b2 then
          match rest2 with
          | [] => emitOnError repl
          | b3 :: rest3 =>
            if isCont b3 then
              match rest3 with
              | [] => emitOnError repl
              | b4 :: rest4 =>
                if isCont b4 then
                  ((b1 - 0xF0) * 0x40000 + (b2 - 0x80) * 0x1000 +
                    (b3 - 0x80) * 0x40 + (b4 - 0x80)) ::
                    utf8DecodeLenient repl rest4
                else emitOnError repl ++ utf8DecodeLenient repl (b4 :: rest4)
            else emitOnError repl ++ utf8DecodeLenient repl (b3 :: rest3)
        else emitOnError repl ++ utf8DecodeLenient repl (b2 :: rest2)
    else emitOnError repl ++ utf8DecodeLenient repl rest

/-- Well-formedness of a byte list as UTF-8 (same branch structure as
`utf8DecodeLenient`): exactly the inputs on which CPython's
`errors='strict'` decoder does not raise, i.e. on which the lenient
decoders never invoke their error handler. -/
def utf8Valid : List Nat → Bool
  | [] => true
  | b1 :: rest =>
    if b1 < 0x80 then utf8Valid rest
    else if 0xC2 ≤ b1 && b1 ≤ 0xDF then
      match rest with
      | [] => false
      | b2 :: rest2 => if isCont b2 then utf8Valid rest2 else false
    else if 0xE0 ≤ b1 && b1 ≤ 0xEF then
      match rest with
      | [] => false
      | b2 :: rest2 =>
        if isSecondByteOk b1 b2 then
          match rest2 with
          | [] => false
          | b3 :: rest3 => if isCont b3 then utf8Valid rest3 else false
        else false
    else if 0xF0 ≤ b1 && b1 ≤ 0xF4 then
      match rest with
      | [] => false
      | b2 :: rest2 =>
        if isSecondByteOk b1 b2 then
          match rest2 with
          | [] => false
          | b3 :: rest3 =>
            if isCont b3 then
              match rest3 with
              | [] => false
              | b4 :: rest4 => if isCont b4 then utf8Valid rest4 else false
            else false
        else false
    else false

/-- View a list of code points as a Lean string (used to put decoded
pseudo-terminal output into the `stdout` field of the result). -/
def stringOfCodepoints (cs : List Nat) : String :=
  String.mk (cs.map Char.ofNat)

namespace CodexCodeInterface

/-- Error message raised by `CodexCodeInterface.__init__`
(src/utils/codex_interface.py lines 16-18 and 20-22). -/
def notFoundMsg : String :=
  "Codex CLI not found. Please ensure 'codex' is installed and in PATH"

/-- Embedding of `CodexCodeInterface.__init__`
(src/utils/codex_interface.py lines 11-22): probes `codex --version`;
`.error` models the `RuntimeError` it raises, in which case no adapter
instance exists, so no `execute_code_cli` call can ever be made on it. -/
def init : ProbeOutcome → Except String Unit
  | .notFound => .error notFoundMsg
  | .completed rc => if rc = 0 then .ok () else .error notFoundMsg

/-- Nondeterministic outcome of the body of
`CodexCodeInterface.execute_code_cli`: `os.chdir(cwd)` may raise;
`subprocess.Popen` may raise (before `os.close(slave_fd)` is reached);
a later step inside the inner `try` may raise (after the slave side was
closed); the read loop may hit the 600 s deadline with some chunks
collected; or the process exits and the drain finishes with the collected
chunks and a return code. -/
inductive CodexWorld where
  | chdirFails (msg : String)
  | popenFails (msg : String)
  | laterFails (msg : String)
  | timedOut (collected : List (List Nat))
  | completed (collected : List (List Nat)) (returncode : Int)
  deriving Repr, DecidableEq

/-- Process-wide state left behind by `CodexCodeInterface.execute_code_cli`:
the current working directory, and whether the master/slave descriptors of
the pseudo-terminal pair opened by `pty.openpty()` are still open (`false`
also when they were never opened). -/
structure ExitState where
  dir : String
  masterOpen : Bool
  slaveOpen : Bool
  deriving Repr, DecidableEq

/-- Embedding of the command construction in
`CodexCodeInterface.execute_code_cli`
(src/utils/codex_interface.py lines 34-36): `codex`, plus a model flag
when a model was requested. -/
def build_command (model : Option String) : List String :=
  ["codex"] ++ (match model with | some m => ["--model", m] | none => [])

/-- Embedding of `CodexCodeInterface.execute_code_cli`
(src/utils/codex_interface.py lines 24-139).  `dir0` is the process-wide
current working directory on entry; the `ExitState` component records the
directory and descriptor state after the call returns. -/
def execute_code_cli (prompt cwd : String) (model : Option String)
    (world : CodexWorld) (dir0 : String) : InvocationResult × ExitState :=
  let original_cwd := dir0
  let _cmd := build_command model
  let _ := (prompt, cwd)
  match world with
  | .chdirFails msg =>
      -- os.chdir(cwd) raised before pty.openpty(): no descriptors were
      -- created; the outer handler (lines 132-139) restores the directory.
      ({ success := false, stdout := "", stderr := msg, returncode := -1 },
       { dir := original_cwd, masterOpen := false, slaveOpen := false })
  | .popenFails msg =>
      -- pty.openpty() (line 39) opened both descriptors and subprocess.Popen
      -- (line 43) raised: the inner handler (lines 116-122) closes master_fd
      -- only, restores the directory and re-raises; the outer handler
      -- (lines 132-139) restores the directory again and returns.  slave_fd
      -- is not closed on this path, since `os.close(slave_fd)` (line 54) was
      -- never reached.
      ({ success := false, stdout := "", stderr := msg, returncode := -1 },
       { dir := original_cwd, masterOpen := false, slaveOpen := true })
  | .laterFails msg =>
      -- a step after `os.close(slave_fd)` (line 54) raised: the inner
      -- handler closes master_fd, restores the directory and re-raises to
      -- the outer handler, which returns the error result.
      ({ success := false, stdout := "", stderr := msg, returncode := -1 },
       { dir := original_cwd, masterOpen := false, slaveOpen := false })
  | .timedOut collected =>
      -- lines 65-75: the deadline expired inside the read loop; the chunks
      -- collected in stdout_data are discarded (the literal dict has
      -- stdout equal to the empty string), the process is terminated, the
      -- directory restored and master_fd closed.
      let _stdout_data := collected
      ({ success := false, stdout := "",
         stderr := "Command timed out after 10 minutes", returncode := -1 },
       { dir := original_cwd, masterOpen := false, slaveOpen := false })
  | .completed collected rc =>
      -- lines 77-114: the process exited; remaining output was drained into
      -- stdout_data, joined and decoded with errors ignored (line 103), the
      -- directory restored, master_fd closed, and the result normalized.
      let stdout := stringOfCodepoints (utf8DecodeLenient none collected.flatten)
      ({ success := rc == 0, stdout := stdout, stderr := "", returncode := rc },
       { dir := original_cwd, masterOpen := false, slaveOpen := false })

/-- Embedding of `CodexCodeInterface.extract_file_changes`
(src/utils/codex_interface.py lines 141-143): the documented placeholder,
literally `return []`. -/
def extract_file_changes (response : String) : List (List (String × String)) :=
  let _ := response
  []

end CodexCodeInterface

/-!
Theorems settling the claims.  All worlds and arguments are quantified
universally, so each statement covers every outcome path of the embedded
methods.
-/

/-- Helper: a string append whose left part is non-empty is non-empty. -/
theorem string_append_ne_empty (a b : String) (h : a.length ≠ 0) :
    a ++ b ≠ "" := by
  intro hab
  have hlen := congrArg String.length hab
  simp [String.length_append] at hlen
  omega

/-- Helper: appending on the right preserves having a given prefix. -/
theorem prefix_extend (B a b : String) (h : ∃ r, a = B ++ r) :
    ∃ r, a ++ b = B ++ r := by
  obtain ⟨r, hr⟩ := h
  exact ⟨r ++ b, by rw [hr, String.append_assoc]⟩

/-- Helper: every string is a prefix of itself. -/
theorem prefix_refl (B : String) : ∃ r, B = B ++ r :=
  ⟨"", by simp⟩

/-- C1: for every InvocationResult returned by execute_code_cli of either
adapter, on every outcome path (clean exit, timeout, unexpected exception,
and for Codex also startup failure and chdir failure), the success field
is true iff the returncode field equals 0. -/
theorem C1_success_iff_returncode_zero
    (prompt cwd : String) (model : Option String) (dir0 : String)
    (wCline : ClineCodeInterface.ClineWorld)
    (wCodex : CodexCodeInterface.CodexWorld) :
    ((ClineCodeInterface.execute_code_cli prompt cwd model wCline dir0).1.success
        = true ↔
      (ClineCodeInterface.execute_code_cli prompt cwd model wCline dir0).1.returncode
        = 0) ∧
    ((CodexCodeInterface.execute_code_cli prompt cwd model wCodex dir0).1.success
        = true ↔
      (CodexCodeInterface.execute_code_cli prompt cwd model wCodex dir0).1.returncode
        = 0) := by
  constructor
  · cases wCline <;>
      simp [ClineCodeInterface.execute_code_cli]
  · cases wCodex <;>
      simp [CodexCodeInterface.execute_code_cli]

/-- C2 counterexample: the pseudo-terminal adapter's timeout path returns
an empty stdout even though output bytes were collected before the
deadline expired (here the bytes of "OK"), contradicting the claim that
the timeout result carries the collected output and never has an empty
stdout when output had been read. -/
theorem C2_counterexample :
    (CodexCodeInterface.execute_code_cli "p" "/tmp/w" none
        (.timedOut [[0x4F, 0x4B]]) "/home/u").1.stdout = "" ∧
    stringOfCodepoints (utf8DecodeLenient none [0x4F, 0x4B]) = "OK" ∧
    ("OK" : String) ≠ "" := by
  refine ⟨rfl, by decide, by decide⟩

/-- C2 amended: on timeout the pipe-based (Cline) adapter's result carries
the partial stdout exposed by the TimeoutExpired exception (empty when the
exception exposes none), while the pseudo-terminal (Codex) adapter's
timeout result always has empty stdout: the bytes collected before the
deadline are discarded. -/
theorem C2_timeout_partial_output
    (prompt cwd : String) (model : Option String) (dir0 : String)
    (pOut pErr : Option String) (collected : List (List Nat)) :
    (ClineCodeInterface.execute_code_cli prompt cwd model
        (.timedOut pOut pErr) dir0).1.stdout = pOut.getD "" ∧
    (CodexCodeInterface.execute_code_cli prompt cwd model
        (.timedOut collected) dir0).1.stdout = "" :=
  ⟨rfl, rfl⟩

/-- C3: for every adapter and every outcome path of execute_code_cli, the
process working directory after the call equals the working directory that
was current before the call. -/
theorem C3_working_directory_restored
    (prompt cwd : String) (model : Option String) (dir0 : String)
    (wCline : ClineCodeInterface.ClineWorld)
    (wCodex : CodexCodeInterface.CodexWorld) :
    (ClineCodeInterface.execute_code_cli prompt cwd model wCline dir0).2
        = dir0 ∧
    (CodexCodeInterface.execute_code_cli prompt cwd model wCodex dir0).2.dir
        = dir0 := by
  constructor
  · cases wCline <;> rfl
  · cases wCodex <;> rfl

/-- C4: whenever an invocation times out, the result of either adapter has
success = false, returncode = -1, and a non-empty stderr that mentions the
timeout condition (it starts with the "Command timed out after ..."
message of the respective adapter). -/
theorem C4_timeout_result_shape
    (prompt cwd : String) (model : Option String) (dir0 : String)
    (pOut pErr : Option String) (collected : List (List Nat)) :
    ((ClineCodeInterface.execute_code_cli prompt cwd model
        (.timedOut pOut pErr) dir0).1.success = false ∧
      (ClineCodeInterface.execute_code_cli prompt cwd model
        (.timedOut pOut pErr) dir0).1.returncode = -1 ∧
      (ClineCodeInterface.execute_code_cli prompt cwd model
        (.timedOut pOut pErr) dir0).1.stderr ≠ "" ∧
      ∃ rest, (ClineCodeInterface.execute_code_cli prompt cwd model
        (.timedOut pOut pErr) dir0).1.stderr
          = "Command timed out after 30 minutes" ++ rest) ∧
    ((CodexCodeInterface.execute_code_cli prompt cwd model
        (.timedOut collected) dir0).1.success = false ∧
      (CodexCodeInterface.execute_code_cli prompt cwd model
        (.timedOut collected) dir0).1.returncode = -1 ∧
      (CodexCodeInterface.execute_code_cli prompt cwd model
        (.timedOut collected) dir0).1.stderr ≠ "" ∧
      ∃ rest, (CodexCodeInterface.execute_code_cli prompt cwd model
        (.timedOut collected) dir0).1.stderr
          = "Command timed out after 10 minutes" ++ rest) := by
  have hcl : ∃ rest, (ClineCodeInterface.execute_code_cli prompt cwd model
      (.timedOut pOut pErr) dir0).1.stderr
        = "Command timed out after 30 minutes" ++ rest := by
    simp only [ClineCodeInterface.execute_code_cli]
    apply prefix_extend
    split
    · apply prefix_extend
      apply prefix_extend
      apply prefix_extend
      apply prefix_extend
      apply prefix_extend
      exact prefix_refl _
    · exact prefix_refl _
  refine ⟨⟨rfl, rfl, ?_, hcl⟩, rfl, rfl, ?_,
    ⟨"", by simp [CodexCodeInterface.execute_code_cli]⟩⟩
  · obtain ⟨rest, hr⟩ := hcl
    rw [hr]
    exact string_append_ne_empty _ _ (by decide)
  · show ("Command timed out after 10 minutes" : String) ≠ ""
    decide

/-- C5 (code bug): when subprocess.Popen raises (process startup fails),
the inner exception handler closes only the master descriptor; the slave
descriptor opened by pty.openpty() is left open, contradicting the claim
that every terminal descriptor is closed on every exit path.  The master
descriptor, in contrast, is closed on every path. -/
theorem C5_slave_descriptor_leak :
    ((CodexCodeInterface.execute_code_cli "p" "/tmp/w" none
        (.popenFails "spawn failed") "/home/u").2).slaveOpen = true ∧
    ((CodexCodeInterface.execute_code_cli "p" "/tmp/w" none
        (.popenFails "spawn failed") "/home/u").2).masterOpen = false :=
  ⟨rfl, rfl⟩

/-- C6 counterexample: the decode step at line 103 uses errors ignore, so
on the undecodable input byte 0xFF the collected output decodes to the
empty string; decoding with a replacement character (as the claim states)
would instead produce the single code point U+FFFD.  Hence undecodable
sequences are dropped, not replaced. -/
theorem C6_counterexample :
    (CodexCodeInterface.execute_code_cli "p" "/tmp/w" none
        (.completed [[0xFF]] 0) "/home/u").1.stdout = "" ∧
    utf8DecodeLenient none [0xFF] = [] ∧
    utf8DecodeLenient (some 0xFFFD) [0xFF] = [0xFFFD] ∧
    ([] : List Nat) ≠ [0xFFFD] := by
  refine ⟨rfl, by decide, by decide, by decide⟩

/-- Helper: decoding step on an ASCII byte. -/
theorem dec_ascii (repl : Option Nat) (b1 : Nat) (rest : List Nat)
    (h1 : b1 < 0x80) :
    utf8DecodeLenient repl (b1 :: rest)
      = b1 :: utf8DecodeLenient repl rest := by
  rw [utf8DecodeLenient.eq_def]
  simp only [if_pos h1]

/-- Helper: decoding step on a well-formed two-byte sequence. -/
theorem dec_two (repl : Option Nat) (b1 b2 : Nat) (rest2 : List Nat)
    (h1 : ¬ b1 < 0x80) (h2 : (0xC2 ≤ b1 && b1 ≤ 0xDF) = true)
    (hc : isCont b2 = true) :
    utf8DecodeLenient repl (b1 :: b2 :: rest2)
      = ((b1 - 0xC0) * 0x40 + (b2 - 0x80)) :: utf8DecodeLenient repl rest2 := by
  rw [utf8DecodeLenient.eq_def]
  simp only [if_neg h1, if_pos h2, if_pos hc]

/-- Helper: decoding step on a well-formed three-byte sequence. -/
theorem dec_three (repl : Option Nat) (b1 b2 b3 : Nat) (rest3 : List Nat)
    (h1 : ¬ b1 < 0x80) (h2 : ¬ (0xC2 ≤ b1 && b1 ≤ 0xDF) = true)
    (h3 : (0xE0 ≤ b1 && b1 ≤ 0xEF) = true)
    (hs : isSecondByteOk b1 b2 = true) (hc : isCont b3 = true) :
    utf8DecodeLenient repl (b1 :: b2 :: b3 :: rest3)
      = ((b1 - 0xE0) * 0x1000 + (b2 - 0x80) * 0x40 + (b3 - 0x80)) ::
          utf8DecodeLenient repl rest3 := by
  rw [utf8DecodeLenient.eq_def]
  simp only [if_neg h1, if_neg h2, if_pos h3, if_pos hs, if_pos hc]

/-- Helper: decoding step on a well-formed four-byte sequence. -/
theorem dec_four (repl : Option Nat) (b1 b2 b3 b4 : Nat) (rest4 : List Nat)
    (h1 : ¬ b1 < 0x80) (h2 : ¬ (0xC2 ≤ b1 && b1 ≤ 0xDF) = true)
    (h3 : ¬ (0xE0 ≤ b1 && b1 ≤ 0xEF) = true)
    (h4 : (0xF0 ≤ b1 && b1 ≤ 0xF4) = true)
    (hs : isSecondByteOk b1 b2 = true) (hc3 : isCont b3 = true)
    (hc4 : isCont b4 = true) :
    utf8DecodeLenient repl (b1 :: b2 :: b3 :: b4 :: rest4)
      = ((b1 - 0xF0) * 0x40000 + (b2 - 0x80) * 0x1000 +
          (b3 - 0x80) * 0x40 + (b4 - 0x80)) ::
          utf8DecodeLenient repl rest4 := by
  rw [utf8DecodeLenient.eq_def]
  simp only [if_neg h1, if_neg h2, if_neg h3, if_pos h4, if_pos hs,
    if_pos hc3, if_pos hc4]

/-- Helper: on well-formed UTF-8 input the error handler of the lenient
decoder is never invoked, so the replacement policy is irrelevant there
(strong induction on the length of the byte list). -/
theorem utf8_policy_agree_aux (r : Nat) :
    ∀ (n : Nat) (bs : List Nat), bs.length ≤ n → utf8Valid bs = true →
      utf8DecodeLenient (some r) bs = utf8DecodeLenient none bs := by
  intro n
  induction n with
  | zero =>
    intro bs hlen _
    cases bs with
    | nil => rfl
    | cons b1 rest => simp at hlen
  | succ n ih =>
    intro bs hlen hv
    cases bs with
    | nil => rfl
    | cons b1 rest =>
      rw [utf8Valid.eq_def] at hv
      by_cases h1 : b1 < 0x80
      · simp only [if_pos h1] at hv
        rw [dec_ascii (some r) b1 rest h1, dec_ascii none b1 rest h1,
          ih rest (by simp at hlen; omega) hv]
      · simp only [if_neg h1] at hv
        by_cases h2 : (0xC2 ≤ b1 && b1 ≤ 0xDF) = true
        · simp only [if_pos h2] at hv
          cases rest with
          | nil => simp at hv
          | cons b2 rest2 =>
            by_cases hc : isCont b2 = true
            · simp only [if_pos hc] at hv
              rw [dec_two (some r) b1 b2 rest2 h1 h2 hc,
                dec_two none b1 b2 rest2 h1 h2 hc,
                ih rest2 (by simp at hlen; omega) hv]
            · simp [if_neg hc] at hv
        · simp only [if_neg h2] at hv
          by_cases h3 : (0xE0 ≤ b1 && b1 ≤ 0xEF) = true
          · simp only [if_pos h3] at hv
            cases rest with
            | nil => simp at hv
            | cons b2 rest2 =>
              by_cases hs : isSecondByteOk b1 b2 = true
              · simp only [if_pos hs] at hv
                cases rest2 with
                | nil => simp at hv
                | cons b3 rest3 =>
                  by_cases hc3 : isCont b3 = true
                  · simp only [if_pos hc3] at hv
                    rw [dec_three (some r) b1 b2 b3 rest3 h1 h2 h3 hs hc3,
                      dec_three none b1 b2 b3 rest3 h1 h2 h3 hs hc3,
                      ih rest3 (by simp at hlen; omega) hv]
                  · simp [if_neg hc3] at hv
              · simp [if_neg hs] at hv
          · simp only [if_neg h3] at hv
            by_cases h4 : (0xF0 ≤ b1 && b1 ≤ 0xF4) = true
            · simp only [if_pos h4] at hv
              cases rest with
              | nil => simp at hv
              | cons b2 rest2 =>
                by_cases hs : isSecondByteOk b1 b2 = true
                · simp only [if_pos hs] at hv
                  cases rest2 with
                  | nil => simp at hv
                  | cons b3 rest3 =>
                    by_cases hc3 : isCont b3 = true
                    · simp only [if_pos hc3] at hv
                      cases rest3 with
                      | nil => simp at hv
                      | cons b4 rest4 =>
                        by_cases hc4 : isCont b4 = true
                        · simp only [if_pos hc4] at hv
                          rw [dec_four (some r) b1 b2 b3 b4 rest4
                              h1 h2 h3 h4 hs hc3 hc4,
                            dec_four none b1 b2 b3 b4 rest4
                              h1 h2 h3 h4 hs hc3 hc4,
                            ih rest4 (by simp at hlen; omega) hv]
                        · simp [if_neg hc4] at hv
                    · simp [if_neg hc3] at hv
                · simp [if_neg hs] at hv
            · rw [if_neg h4] at hv
              simp at hv

/-- C6 amended: the decoding step is total (it is a function defined on
every byte sequence and never raises), undecodable byte sequences are
dropped rather than replaced, and on well-formed UTF-8 input the error
handler is never invoked: the ignoring and the replacing decoder agree on
every valid input, and they differ exactly where the error handler runs,
e.g. on the single byte 0xFF, which is dropped. -/
theorem C6_decode_ignores_undecodable :
    (∀ bs : List Nat, ∀ r : Nat, utf8Valid bs = true →
      utf8DecodeLenient (some r) bs = utf8DecodeLenient none bs) ∧
    utf8Valid [0xFF] = false ∧
    utf8DecodeLenient none [0xFF] = [] ∧
    utf8DecodeLenient (some 0xFFFD) [0xFF] = [0xFFFD] := by
  refine ⟨?_, by decide, by decide, by decide⟩
  intro bs r hv
  exact utf8_policy_agree_aux r bs.length bs le_rfl hv

/-- C6 witness: the amended theorem applied at the concrete valid input
consisting of the single byte 0x41. -/
theorem C6_decode_ignores_undecodable_witness :
    utf8DecodeLenient (some 0xFFFD) [0x41] = utf8DecodeLenient none [0x41] :=
  C6_decode_ignores_undecodable.1 [0x41] 0xFFFD (by decide)

/-- C7: constructing either adapter when the agent binary is absent
(FileNotFoundError from the probe) or when the availability probe exits
with a non-zero status yields the configuration error of that adapter; no
adapter instance exists in that case, so no execute_code_cli call can be
made on it. -/
theorem C7_construction_fails_fast :
    ClineCodeInterface.init .notFound
        = .error ClineCodeInterface.notFoundMsg ∧
    (∀ rc : Int, rc ≠ 0 → ClineCodeInterface.init (.completed rc)
        = .error ClineCodeInterface.notFoundMsg) ∧
    CodexCodeInterface.init .notFound
        = .error CodexCodeInterface.notFoundMsg ∧
    (∀ rc : Int, rc ≠ 0 → CodexCodeInterface.init (.completed rc)
        = .error CodexCodeInterface.notFoundMsg) := by
  refine ⟨rfl, ?_, rfl, ?_⟩ <;> intro rc h <;>
    simp [ClineCodeInterface.init, CodexCodeInterface.init, h]

/-- C7 witness: the theorem applied at the concrete probe exit code 1 for
both adapters. -/
theorem C7_construction_fails_fast_witness :
    ClineCodeInterface.init (.completed 1)
        = .error ClineCodeInterface.notFoundMsg ∧
    CodexCodeInterface.init (.completed 1)
        = .error CodexCodeInterface.notFoundMsg :=
  ⟨C7_construction_fails_fast.2.1 1 (by decide),
   C7_construction_fails_fast.2.2.2 1 (by decide)⟩

/-- C8: the Cline adapter builds the same command line for any two values
of the model parameter (covering model equal to some "gpt-9" and none); the
command is exactly the fixed automation flags followed by the prompt, and
the fixed flag list contains neither a "--model" flag nor the "-s" setting
flag; the whole invocation result is likewise independent of the model
argument. -/
theorem C8_cline_model_ignored
    (prompt cwd : String) (m1 m2 : Option String)
    (world : ClineCodeInterface.ClineWorld) (dir0 : String) :
    ClineCodeInterface.build_command prompt m1
        = ClineCodeInterface.build_command prompt m2 ∧
    ClineCodeInterface.build_command prompt m1
        = ["cline", "-y", "-F", "plain", "--oneshot"] ++ [prompt] ∧
    "--model" ∉ ["cline", "-y", "-F", "plain", "--oneshot"] ∧
    "-s" ∉ ["cline", "-y", "-F", "plain", "--oneshot"] ∧
    ClineCodeInterface.execute_code_cli prompt cwd m1 world dir0
        = ClineCodeInterface.execute_code_cli prompt cwd m2 world dir0 :=
  ⟨rfl, rfl, by decide, by decide, rfl⟩

/-- C9: for either adapter, extract_file_changes returns the empty
collection on every response string. -/
theorem C9_extract_file_changes_empty (response : String) :
    ClineCodeInterface.extract_file_changes response = [] ∧
    CodexCodeInterface.extract_file_changes response = [] :=
  ⟨rfl, rfl⟩

/-- C10: on the clean-exit path of the pseudo-terminal adapter (process
exited before the deadline, no exception), the stderr field of the result
is the empty string for every collected output and return code: all
collected terminal output goes to stdout. -/
theorem C10_clean_exit_stderr_empty
    (prompt cwd : String) (model : Option String)
    (collected : List (List Nat)) (rc : Int) (dir0 : String) :
    (CodexCodeInterface.execute_code_cli prompt cwd model
        (.completed collected rc) dir0).1.stderr = "" :=
  rfl
